import Mathlib

/-!
Shallow embedding of the PI42 maker-bot trading engine (run.py) and proofs
about its decision, reconciliation, risk and resilience logic.

Machine floats of the source are modelled as exact rationals; the Python
dict self.pending_orders is modelled as an association list keyed by the
symbol (Python dicts have unique keys, so at most one entry per symbol by
construction).  Remote I/O (HTTP responses, clock readings) enters each
operation as an explicit oracle argument describing the outcome the source
code would have observed.
-/

namespace TradBot

/-- Strategy constant self.drop_percent = 0.75. -/
def dropPercent : ℚ := 0.75

/-- Strategy constant self.max_buys = 8. -/
def maxBuys : ℕ := 8

/-- Strategy constant self.max_margin_usage = 0.6. -/
def maxMarginUsage : ℚ := 0.6

/-- Strategy constant self.min_liq_buffer = 0.2. -/
def minLiqBuffer : ℚ := 0.2

/-- Strategy constant self.maker_order_timeout = 120 seconds. -/
def makerOrderTimeout : ℚ := 120

/-- Reconciliation gate self.order_check_interval = 30 seconds. -/
def orderCheckInterval : ℚ := 30

/-- Health ceiling self.max_api_errors = 5. -/
def maxApiErrors : ℕ := 5

/-- Truncation toward zero, the behaviour of Python int() on a number. -/
def pyTrunc (q : ℚ) : ℤ := if 0 ≤ q then ⌊q⌋ else ⌈q⌉

/-- Round half to even, the behaviour of Python round() on a number,
modelled exactly on rationals. -/
def roundHalfEven (q : ℚ) : ℤ :=
  let f := ⌊q⌋
  let r := q - f
  if r < 1 / 2 then f
  else if 1 / 2 < r then f + 1
  else if f % 2 = 0 then f else f + 1

/-- Python round(q, n): round half to even at n decimal places. -/
def pyRoundTo (n : ℕ) (q : ℚ) : ℚ := (roundHalfEven (q * 10 ^ n) : ℚ) / 10 ^ n

/-- One entry of the SYMBOL_CONFIG table. -/
structure SymbolCfg where
  qty : ℚ
  leverage : ℤ
  pricePrecision : ℕ
  qtyPrecision : ℕ
  minPrice : ℤ
  tickSize : ℤ
  makerSpread : ℚ
  targetSpread : ℚ
  stopLossSpread : ℚ
deriving DecidableEq

/-- The SYMBOL_CONFIG dictionary of run.py. -/
def symbolConfig : String → Option SymbolCfg
  | "ETHINR" => some
      { qty := 0.02, leverage := 150, pricePrecision := 0, qtyPrecision := 3,
        minPrice := 100, tickSize := 10, makerSpread := 0.07, targetSpread := 0.75,
        stopLossSpread := 2.0 }
  | "BTCINR" => some
      { qty := 0.002, leverage := 150, pricePrecision := 0, qtyPrecision := 3,
        minPrice := 1000, tickSize := 100, makerSpread := 0.15, targetSpread := 0.75,
        stopLossSpread := 2.0 }
  | "SOLINR" => some
      { qty := 0.5, leverage := 100, pricePrecision := 0, qtyPrecision := 3,
        minPrice := 10, tickSize := 1, makerSpread := 0.15, targetSpread := 0.75,
        stopLossSpread := 2.0 }
  | "LTCINR" => some
      { qty := 0.7, leverage := 50, pricePrecision := 0, qtyPrecision := 3,
        minPrice := 10, tickSize := 1, makerSpread := 0.15, targetSpread := 0.75,
        stopLossSpread := 2.0 }
  | "BNBINR" => some
      { qty := 0.05, leverage := 75, pricePrecision := 0, qtyPrecision := 3,
        minPrice := 10, tickSize := 1, makerSpread := 0.15, targetSpread := 0.75,
        stopLossSpread := 2.0 }
  | "BCHINR" => some
      { qty := 0.07, leverage := 50, pricePrecision := 0, qtyPrecision := 3,
        minPrice := 10, tickSize := 1, makerSpread := 0.15, targetSpread := 0.75,
        stopLossSpread := 2.0 }
  | "ZECINR" => some
      { qty := 0.1, leverage := 40, pricePrecision := 0, qtyPrecision := 3,
        minPrice := 10, tickSize := 1, makerSpread := 0.15, targetSpread := 0.75,
        stopLossSpread := 2.0 }
  | _ => none

/-- Status strings computed by run.py from filledAmount and orderAmount. -/
inductive OrderStatus
  | NEW
  | PART_FILLED
  | FILLED
deriving DecidableEq

/-- The fields of an exchange open-order record that the engine reads when
it re-checks a tracked order by identifier. -/
structure OrderData where
  orderAmount : ℚ
  filledAmount : ℚ
deriving DecidableEq

/-- Status derivation used at every call site of run.py:
filledAmount = 0 gives NEW, 0 < filledAmount < orderAmount gives
PART_FILLED (the string PARTIALLY underscore FILLED in the source),
otherwise FILLED. -/
def orderStatusOf (od : OrderData) : OrderStatus :=
  if od.filledAmount = 0 then OrderStatus.NEW
  else if od.filledAmount < od.orderAmount then OrderStatus.PART_FILLED
  else OrderStatus.FILLED

/-- An observed open position, as built by get_position from the API
response fields quantity, entryPrice, liquidationPrice, leverage,
unrealisedPnl. -/
structure Position where
  qty : ℚ
  avg : ℚ
  liq : ℚ
  leverage : ℚ
  unrealizedPnl : ℚ
deriving DecidableEq

/-- One tracked entry of self.pending_orders, mirroring the dict literal
written by place_maker_order and fetch_and_clean_open_orders. -/
structure PendingInfo where
  orderId : Option String
  clientOrderId : Option String
  placedTime : ℚ
  price : ℚ
  quantity : ℚ
  filled : ℚ
  fillPercentage : ℚ
  status : OrderStatus
  orderType : String
  ltpAtOrder : Option ℚ
  attempts : ℕ
deriving DecidableEq

/-- The balance triple returned by get_user_balance. -/
structure BalanceData where
  inrBalance : ℚ
  pnlIsolated : ℚ
  pnlCross : ℚ
deriving DecidableEq

/-- The mutable instance state of SimpleMakerBot that the embedded
operations read and write. -/
structure BotState where
  pendingOrders : List (String × PendingInfo)
  nextAvgPrice : List (String × ℚ)
  lastOrderCheck : ℚ
  ordersPlaced : ℕ
  ordersFilled : ℕ
  ordersCancelled : ℕ
  apiErrorCount : ℕ
  balance : ℚ
  pnlIsolated : ℚ
  pnlCross : ℚ
  totalPnl : ℚ
  availableBalance : ℚ
deriving DecidableEq

/-- Python: symbol in self.pending_orders, returning the tracked entry. -/
def findPending (st : BotState) (sym : String) : Option PendingInfo :=
  (st.pendingOrders.find? (fun p => p.1 = sym)).map (fun p => p.2)

/-- Python: self.pending_orders.pop(symbol, None). -/
def erasePending (st : BotState) (sym : String) : BotState :=
  { st with pendingOrders := st.pendingOrders.filter (fun p => ¬ p.1 = sym) }

/-- Trading signals returned by get_signal. -/
inductive Signal
  | buy
  | hold
  | pending
deriving DecidableEq

/-- Runtime errors the decision function can raise (unguarded division). -/
inductive PyErr
  | zeroDivisionError
deriving DecidableEq

/-- The pending-order block at the top of get_signal (run.py lines
854 to 888): when a tracked order with an identifier exists, the engine
re-fetches it (lookup is the fetched record, none when the exchange no
longer lists it).  Returns some signal when the block returns early with
pending, otherwise none together with the possibly updated state (a FILLED
order increments orders_filled and is removed; a vanished order is removed
without incrementing). -/
def getSignalPendingPhase (st : BotState) (sym : String) (lookup : Option OrderData) :
    Option Signal × BotState :=
  match findPending st sym with
  | none => (none, st)
  | some info =>
    match info.orderId with
    | none => (none, st)
    | some _ =>
      match lookup with
      | some od =>
        match orderStatusOf od with
        | OrderStatus.NEW => (some Signal.pending, st)
        | OrderStatus.PART_FILLED => (some Signal.pending, st)
        | OrderStatus.FILLED =>
          (none, erasePending { st with ordersFilled := st.ordersFilled + 1 } sym)
      | none => (none, erasePending st sym)

/-- Steps 2 to 5 of get_signal (run.py lines 890 to 912): initial entry,
position-size cap, liquidation buffer, and the averaging ladder.  The
divisions of the source are unguarded, so a zero divisor is an explicit
error value. -/
def getSignalDecision (st : BotState) (sym : String) (ltp : ℚ) (position : Option Position)
    (qty : ℚ) : Except PyErr Signal × BotState :=
  match position with
  | none => (Except.ok Signal.buy, st)
  | some pos =>
    if qty = 0 then (Except.error PyErr.zeroDivisionError, st)
    else
      let buyCount := pyTrunc (pos.qty / qty)
      if (maxBuys : ℤ) ≤ buyCount then (Except.ok Signal.hold, st)
      else if ltp = 0 then (Except.error PyErr.zeroDivisionError, st)
      else
        let liqGap := (ltp - pos.liq) / ltp * 100
        if liqGap < minLiqBuffer then (Except.ok Signal.hold, st)
        else
          let priceMultiplier := 1 - dropPercent / 100 * (buyCount : ℚ)
          let nextPrice := pos.avg * priceMultiplier
          let st := { st with nextAvgPrice :=
            (sym, pyRoundTo 2 nextPrice) :: st.nextAvgPrice.filter (fun p => ¬ p.1 = sym) }
          if ltp < nextPrice then
            if pos.avg = 0 then (Except.error PyErr.zeroDivisionError, st)
            else (Except.ok Signal.buy, st)
          else (Except.ok Signal.hold, st)

/-- get_signal (run.py lines 854 to 912): the pending-order block followed
by the decision ladder. -/
def getSignal (st : BotState) (sym : String) (ltp : ℚ) (position : Option Position)
    (qty : ℚ) (lookup : Option OrderData) : Except PyErr Signal × BotState :=
  match getSignalPendingPhase st sym lookup with
  | (some s, st) => (Except.ok s, st)
  | (none, st) => getSignalDecision st sym ltp position qty

/-- One element of the JSON array returned by the positions endpoint, with
the fields get_position reads. -/
structure ApiPosition where
  contractPair : String
  quantity : ℚ
  entryPrice : ℚ
  liquidationPrice : ℚ
  leverage : ℚ
  unrealisedPnl : ℚ
deriving DecidableEq

/-- The possible outcomes of the HTTP call inside get_position. -/
inductive PositionFetch
  | ok (positions : List ApiPosition)
  | rateLimited
  | httpStatus (code : ℕ)
  | requestException
deriving DecidableEq

/-- get_position (run.py lines 771 to 819).  Returns the parsed position
(or none) together with the increment applied to self.api_error_count.
On status 200 the first returned row matching the symbol with positive
quantity becomes the position; a missing row, a 429, any other status or a
request exception all yield none — the function holds no cache and never
falls back to a previously observed position. -/
def getPosition (sym : String) (outcome : PositionFetch) : Option Position × ℕ :=
  match outcome with
  | PositionFetch.ok positions =>
    (match positions.find? (fun p => p.contractPair == sym && decide (0 < p.quantity)) with
     | some p =>
       some { qty := p.quantity, avg := p.entryPrice, liq := p.liquidationPrice,
              leverage := p.leverage, unrealizedPnl := p.unrealisedPnl }
     | none => none, 0)
  | PositionFetch.rateLimited => (none, 0)
  | PositionFetch.httpStatus _ => (none, 1)
  | PositionFetch.requestException => (none, 1)

/-- The body of the try block of update_balance (run.py lines 676 to 691),
applied to a successfully fetched balance triple. -/
def updateBalance (bal : BalanceData) (st : BotState) : BotState :=
  { st with
    balance := bal.inrBalance
    pnlIsolated := bal.pnlIsolated
    pnlCross := bal.pnlCross
    totalPnl := bal.pnlIsolated + bal.pnlCross
    availableBalance := max 0 (bal.inrBalance - |bal.pnlIsolated|) }

/-- cfg.get with the leverage key and default 1, as in check_risk_limits. -/
def symbolLeverage (sym : String) : ℤ :=
  ((symbolConfig sym).map SymbolCfg.leverage).getD 1

/-- check_risk_limits (run.py lines 1060 to 1072). -/
def checkRiskLimits (sym : String) (qty price : ℚ) (st : BotState) : Bool :=
  let leverage := symbolLeverage sym
  let marginNeeded := qty * price / (leverage : ℚ)
  let availableMargin := st.availableBalance * maxMarginUsage
  if marginNeeded > availableMargin then false else true

/-- Per-entry body of the reconciliation loop of
update_pending_orders_from_api (run.py lines 433 to 471): returns the
entry as it remains tracked (none when it is to be removed) and the
increment applied to self.orders_filled.  The lookup oracle is
get_open_order_by_id for this symbol and identifier. -/
def reconcileEntry (lookup : String → String → Option OrderData)
    (p : String × PendingInfo) : Option (String × PendingInfo) × ℕ :=
  match p.2.orderId with
  | none => (some p, 0)
  | some oid =>
    match lookup p.1 oid with
    | some od =>
      let fillPct := if od.orderAmount > 0 then od.filledAmount / od.orderAmount * 100 else 0
      let status := orderStatusOf od
      let info := { p.2 with filled := od.filledAmount, fillPercentage := fillPct,
                             status := status }
      if status = OrderStatus.FILLED then (none, 1) else (some (p.1, info), 0)
    | none => (none, 0)

/-- update_pending_orders_from_api (run.py lines 421 to 475): gated to run
at most once per order_check_interval; re-fetches every tracked order,
updates its fill fields, counts the ones observed FILLED, and removes the
FILLED and the vanished ones. -/
def updatePendingOrdersFromApi (now : ℚ) (lookup : String → String → Option OrderData)
    (st : BotState) : BotState :=
  if now - st.lastOrderCheck < orderCheckInterval then st
  else
    let processed := st.pendingOrders.map (reconcileEntry lookup)
    { st with
      lastOrderCheck := now
      pendingOrders := processed.filterMap Prod.fst
      ordersFilled := st.ordersFilled + (processed.map Prod.snd).sum }

/-- Outcomes of the HTTP DELETE call inside cancel_order. -/
inductive CancelResp
  | ok200 (success : Bool)
  | httpStatus (code : ℕ)
  | httpError
  | exn
deriving DecidableEq

/-- cancel_order (run.py lines 480 to 533): true and an incremented
self.orders_cancelled exactly on a 200 response whose body reports
success; every other outcome returns false and leaves the state alone. -/
def cancelOrder (resp : CancelResp) (st : BotState) : Bool × BotState :=
  match resp with
  | CancelResp.ok200 true => (true, { st with ordersCancelled := st.ordersCancelled + 1 })
  | CancelResp.ok200 false => (false, st)
  | CancelResp.httpStatus _ => (false, st)
  | CancelResp.httpError => (false, st)
  | CancelResp.exn => (false, st)

/-- The selection predicate of check_and_clean_old_orders: a tracked order
is marked for cancellation when it has an identifier, a nonzero placement
time, age above maker_order_timeout and fill percentage below 50. -/
def oldOrderSelect (now : ℚ) (p : String × PendingInfo) : Option (String × String) :=
  match p.2.orderId with
  | none => none
  | some oid =>
    if p.2.placedTime = 0 then none
    else if now - p.2.placedTime > makerOrderTimeout ∧ p.2.fillPercentage < 50 then
      some (p.1, oid)
    else none

/-- The second loop of check_and_clean_old_orders: issue one cancellation
and, if it was confirmed, drop the symbol from tracking. -/
def cancelSweepStep (resp : String → String → CancelResp) (s : BotState)
    (q : String × String) : BotState :=
  let r := cancelOrder (resp q.1 q.2) s
  if r.1 then { r.2 with pendingOrders := r.2.pendingOrders.filter (fun p => ¬ p.1 = q.1) }
  else r.2

/-- check_and_clean_old_orders (run.py lines 565 to 589): collects the
orders due for cancellation, then issues each cancellation through
cancel_order (the resp oracle gives the HTTP outcome per symbol and
identifier) and removes from tracking those whose cancellation was
confirmed.  The second component is the list of cancellations issued. -/
def checkAndCleanOldOrders (now : ℚ) (resp : String → String → CancelResp)
    (st : BotState) : BotState × List (String × String) :=
  let ordersToCancel := st.pendingOrders.filterMap (oldOrderSelect now)
  (ordersToCancel.foldl (cancelSweepStep resp) st, ordersToCancel)

/-- format_order_price (run.py lines 917 to 931). -/
def formatOrderPrice (sym : String) (price : ℚ) : ℤ :=
  let cfg := symbolConfig sym
  let minPrice := (cfg.map SymbolCfg.minPrice).getD 1
  let tickSize := (cfg.map SymbolCfg.tickSize).getD 1
  let rounded : ℚ :=
    if minPrice > 1 then (roundHalfEven (price / (minPrice : ℚ)) : ℚ) * (minPrice : ℚ)
    else (roundHalfEven price : ℚ)
  let rounded : ℚ :=
    if tickSize > 1 then (roundHalfEven (rounded / (tickSize : ℚ)) : ℚ) * (tickSize : ℚ)
    else rounded
  pyTrunc rounded

/-- calculate_maker_price (run.py lines 933 to 949). -/
def calculateMakerPrice (sym : String) (ltp : ℚ) : ℤ :=
  let cfg := symbolConfig sym
  let makerSpread := (cfg.map SymbolCfg.makerSpread).getD 0.15
  let tickSize := (cfg.map SymbolCfg.tickSize).getD 1
  let targetPrice := ltp * (1 - makerSpread / 100)
  let formattedPrice := formatOrderPrice sym targetPrice
  let ltpFormatted := formatOrderPrice sym ltp
  let formattedPrice := if formattedPrice ≥ ltpFormatted then ltpFormatted - tickSize
    else formattedPrice
  if formattedPrice < 1 then 1 else formattedPrice

/-- calculate_order_prices (run.py lines 951 to 966). -/
def calculateOrderPrices (sym : String) (entryPrice : ℚ) : ℤ × ℤ :=
  let cfg := symbolConfig sym
  let targetSpread := (cfg.map SymbolCfg.targetSpread).getD 0.75
  let stopLossSpread := (cfg.map SymbolCfg.stopLossSpread).getD 2.0
  let tpPrice := entryPrice * (1 + targetSpread / 100)
  let slPrice := entryPrice * (1 - stopLossSpread / 100)
  let tpPriceInt := formatOrderPrice sym tpPrice
  let slPriceInt := formatOrderPrice sym slPrice
  let slPriceInt :=
    if slPriceInt ≤ 0 ∨ (slPriceInt : ℚ) ≥ entryPrice then max 1 (pyTrunc (entryPrice * 0.95))
    else slPriceInt
  (tpPriceInt, slPriceInt)

/-- Outcome of the order-placement HTTP call: status 201 carries the
identifier field of the response body (orderId or clientOrderId, possibly
absent); anything else is a failure. -/
inductive PlaceResp
  | created (orderId : Option String)
  | failed
deriving DecidableEq

/-- place_maker_order (run.py lines 968 to 1055), state effects only: on a
201 response the order is tracked under its symbol (replacing any previous
entry for that key, as dict assignment does) and self.orders_placed is
incremented; on failure the state is unchanged. -/
def placeMakerOrder (sym : String) (qty ltp : ℚ) (resp : PlaceResp) (now : ℚ)
    (st : BotState) : BotState :=
  let cfg := symbolConfig sym
  let qtyPrecision := (cfg.map SymbolCfg.qtyPrecision).getD 3
  let formattedQty := pyRoundTo qtyPrecision qty
  let makerPrice := calculateMakerPrice sym ltp
  match resp with
  | PlaceResp.created oid =>
    { st with
      pendingOrders :=
        (sym, { orderId := oid, clientOrderId := oid, placedTime := now,
                price := (makerPrice : ℚ), quantity := formattedQty, filled := 0,
                fillPercentage := 0, status := OrderStatus.NEW, orderType := "LIMIT",
                ltpAtOrder := some ltp, attempts := 1 })
        :: st.pendingOrders.filter (fun p => ¬ p.1 = sym)
      ordersPlaced := st.ordersPlaced + 1 }
  | PlaceResp.failed => st

/-- The per-symbol body of the main loop (run.py lines 1168 to 1208) after
price and position have been fetched: compute the signal, and on buy that
passes the risk gate place a maker order.  A division error inside
get_signal is caught at the instrument boundary, keeping whatever state
mutations already happened. -/
def processSymbol (sym : String) (qty ltp : ℚ) (position : Option Position)
    (lookup : Option OrderData) (resp : PlaceResp) (now : ℚ) (st : BotState) : BotState :=
  match getSignal st sym ltp position qty lookup with
  | (Except.error _, st) => st
  | (Except.ok s, st) =>
    if s = Signal.buy then
      if checkRiskLimits sym qty ltp st then placeMakerOrder sym qty ltp resp now st
      else st
    else st

/-- Everything one iteration of the main loop observes from outside for a
given symbol: the clock, the reconciliation and cancellation outcomes, the
balance fetch (none = failure, which aborts the iteration), the price
fetch (none = exception, which skips the symbol), the position fetch
result, the lookup get_signal performs on the tracked order, and the
placement outcome. -/
structure CycleEnv where
  now : ℚ
  reconLookup : String → String → Option OrderData
  cancelResp : String → String → CancelResp
  balanceFetch : Option BalanceData
  ltpFetch : Option ℚ
  position : Option Position
  signalLookup : Option OrderData
  placeResp : PlaceResp

/-- The maintenance prefix of one loop iteration (run.py lines 1135 and
1152): order reconciliation followed by the timeout sweep. -/
def afterMaintenance (env : CycleEnv) (st : BotState) : BotState :=
  (checkAndCleanOldOrders env.now env.cancelResp
    (updatePendingOrdersFromApi env.now env.reconLookup st)).1

/-- One iteration of the main loop (run.py lines 1122 to 1219) restricted
to a single configured symbol: maintenance, then balance refresh (failure
aborts the iteration), then the symbol step (a price-fetch failure skips
it).  The health gate of line 1127 is modelled separately by
checkApiHealth; an iteration it suspends runs none of this and leaves the
trading state untouched. -/
def runCycleSymbol (sym : String) (qty : ℚ) (env : CycleEnv) (st : BotState) : BotState :=
  let st := afterMaintenance env st
  match env.balanceFetch with
  | none => st
  | some bal =>
    let st := updateBalance bal st
    match env.ltpFetch with
    | none => st
    | some ltp =>
      processSymbol sym qty ltp env.position env.signalLookup env.placeResp env.now st

/-- The state after running the iterations described by envs in order. -/
def stateAfter (sym : String) (qty : ℚ) (st : BotState) (envs : List CycleEnv) : BotState :=
  envs.foldl (fun s e => runCycleSymbol sym qty e s) st

/-- check_api_health (run.py lines 1077 to 1109) over the rolling error
count: above the ceiling it reports unhealthy at once, without issuing the
probe; otherwise the probe runs, success decrements the count (floored at
zero, Nat subtraction) and failure increments it. -/
def checkApiHealth (probe : Bool) (count : ℕ) : Bool × ℕ :=
  if count > maxApiErrors then (false, count)
  else if probe then (true, count - 1)
  else (false, count + 1)

/-- Iterated health checks: the verdicts of successive loop iterations and
the final error count, where probes lists the outcome each probe would
have if issued. -/
def healthCheckRun : List Bool → ℕ → List Bool × ℕ
  | [], count => ([], count)
  | probe :: rest, count =>
    let r := checkApiHealth probe count
    let rs := healthCheckRun rest r.2
    (r.1 :: rs.1, rs.2)

/-- Outcome of _initialize_balance_and_positions: either some attempt
succeeded, or the final exception escaped to the caller. -/
inductive InitOutcome
  | success
  | raised
deriving DecidableEq

/-- The retry loop of _initialize_balance_and_positions (run.py lines 219
to 239): res tells whether the body of attempt n succeeds; the second
component lists the sleeps performed between attempts.  The fuel argument
is the number of attempts remaining out of max_retries. -/
def initRetryLoop (res : ℕ → Bool) : ℕ → ℕ → InitOutcome × List ℚ
  | _, 0 => (InitOutcome.raised, [])
  | attempt, fuel + 1 =>
    if res attempt then (InitOutcome.success, [])
    else if fuel = 0 then (InitOutcome.raised, [])
    else
      let r := initRetryLoop res (attempt + 1) fuel
      (r.1, 3 :: r.2)

/-- _initialize_balance_and_positions with max_retries = 3. -/
def initBalanceAndPositions (res : ℕ → Bool) : InitOutcome × List ℚ :=
  initRetryLoop res 0 3

/-- The state of a freshly constructed bot: empty tracking dict and zero
counters (run.py lines 164 to 181). -/
def emptyBotState : BotState :=
  { pendingOrders := [], nextAvgPrice := [], lastOrderCheck := 0, ordersPlaced := 0,
    ordersFilled := 0, ordersCancelled := 0, apiErrorCount := 0, balance := 0,
    pnlIsolated := 0, pnlCross := 0, totalPnl := 0, availableBalance := 0 }

/-- Concrete position used in examples: eight base lots of BTCINR. -/
def posEightLots : Position :=
  { qty := 0.016, avg := 1000, liq := 0, leverage := 150, unrealizedPnl := 0 }

/-- Concrete position used in examples: two base lots of BTCINR. -/
def posTwoLots : Position :=
  { qty := 0.004, avg := 1000, liq := 0, leverage := 150, unrealizedPnl := 0 }

/-- Concrete position used in examples: one base lot of BTCINR. -/
def posOneLot : Position :=
  { qty := 0.002, avg := 1000, liq := 0, leverage := 150, unrealizedPnl := 0 }

/-- A concrete tracked pending order. -/
def sampleTracked : PendingInfo :=
  { orderId := some "ord1", clientOrderId := some "ord1", placedTime := 10, price := 985,
    quantity := 0.002, filled := 0, fillPercentage := 0, status := OrderStatus.NEW,
    orderType := "LIMIT", ltpAtOrder := some 1000, attempts := 1 }

/-- A state tracking sampleTracked under BTCINR, with the reconciliation
gate open (last check at time 0). -/
def stateWithTracked : BotState :=
  { emptyBotState with pendingOrders := [("BTCINR", sampleTracked)] }

/-- A concrete API position row for BTCINR, parsing to posOneLot. -/
def sampleApiRow : ApiPosition :=
  { contractPair := "BTCINR", quantity := 0.002, entryPrice := 1000,
    liquidationPrice := 0, leverage := 150, unrealisedPnl := 0 }

/-- A concrete open-order record that is completely unfilled (NEW). -/
def sampleOpenOrder : OrderData := { orderAmount := 0.002, filledAmount := 0 }

/-- A concrete balance triple. -/
def sampleBalance : BalanceData := { inrBalance := 1000, pnlIsolated := 0, pnlCross := 0 }

/-- A concrete loop-iteration environment: maintenance sees nothing to do,
the balance and price fetches succeed, a position is open, and the lookup
of the tracked order reports it still NEW on the book. -/
def sampleCycleEnv : CycleEnv :=
  { now := 0, reconLookup := fun _ _ => none, cancelResp := fun _ _ => CancelResp.exn,
    balanceFetch := some sampleBalance, ltpFetch := some 1000,
    position := some posOneLot, signalLookup := some sampleOpenOrder,
    placeResp := PlaceResp.failed }

/-- After popping a symbol from the tracking dict, it is no longer found. -/
theorem findPending_erasePending (st : BotState) (sym : String) :
    findPending (erasePending st sym) sym = none := by
  simp only [findPending, erasePending, Option.map_eq_none']
  rw [List.find?_eq_none]
  intro p hp
  have h2 := (List.mem_filter.mp hp).2
  simpa using h2

/-- On nonnegative input, Python int() truncation agrees with floor. -/
theorem pyTrunc_eq_floor {q : ℚ} (h : 0 ≤ q) : pyTrunc q = ⌊q⌋ := by
  simp [pyTrunc, h]

/-- C9: after every successful balance refresh, the available balance
equals max(0, walletBalance - |isolatedUnrealizedPnl|): it is never
negative, flipping the sign of the isolated PnL leaves it unchanged, and
check_risk_limits accepts a trade exactly when qty*price/leverage is at
most this locally derived available balance times max_margin_usage. -/
theorem C9_available_balance_margin_gate (bal : BalanceData) (st : BotState)
    (sym : String) (qty price : ℚ) :
    (updateBalance bal st).availableBalance = max 0 (bal.inrBalance - |bal.pnlIsolated|)
    ∧ 0 ≤ (updateBalance bal st).availableBalance
    ∧ (updateBalance { bal with pnlIsolated := -bal.pnlIsolated } st).availableBalance
        = (updateBalance bal st).availableBalance
    ∧ checkRiskLimits sym qty price (updateBalance bal st)
        = decide (qty * price / (symbolLeverage sym : ℚ)
            ≤ (updateBalance bal st).availableBalance * maxMarginUsage) := by
  refine ⟨rfl, le_max_left 0 _, by simp [updateBalance], ?_⟩
  by_cases h : qty * price / (symbolLeverage sym : ℚ)
      > (updateBalance bal st).availableBalance * maxMarginUsage
  · simp [checkRiskLimits, h, not_le.mpr h]
  · simp [checkRiskLimits, h, not_lt.mp h]

/-- C5: with no pending-order gate firing, whenever the position already
holds at least max_buys base lots (buyCount = floor(position.qty / qty)
at or above max_buys), get_signal returns hold regardless of the price. -/
theorem C5_step_cap_holds (st : BotState) (sym : String) (ltp : ℚ) (pos : Position)
    (qty : ℚ) (lookup : Option OrderData)
    (hpend : (getSignalPendingPhase st sym lookup).1 = none)
    (hq : 0 < qty) (hposqty : 0 ≤ pos.qty)
    (hcap : (maxBuys : ℤ) ≤ ⌊pos.qty / qty⌋) :
    (getSignal st sym ltp (some pos) qty lookup).1 = Except.ok Signal.hold := by
  have hq0 : ¬ qty = 0 := ne_of_gt hq
  have htr : pyTrunc (pos.qty / qty) = ⌊pos.qty / qty⌋ :=
    pyTrunc_eq_floor (div_nonneg hposqty (le_of_lt hq))
  rcases h : getSignalPendingPhase st sym lookup with ⟨r, st2⟩
  rw [h] at hpend
  simp only at hpend
  subst hpend
  simp [getSignal, h, getSignalDecision, hq0, htr, hcap]

/-- Witness for C5 at a concrete input: eight base lots held, cap 8. -/
theorem C5_step_cap_holds_witness :
    (getSignal emptyBotState "BTCINR" 900 (some posEightLots) 0.002 none).1
      = Except.ok Signal.hold :=
  C5_step_cap_holds emptyBotState "BTCINR" 900 posEightLots 0.002 none
    (by with_unfolding_all decide) (by with_unfolding_all decide) (by with_unfolding_all decide) (by with_unfolding_all decide)

/-- C10: the decision ladder divides by the current price without a guard,
so with an open position below the step cap and price 0 the function
raises ZeroDivisionError instead of returning a signal. -/
theorem C10_price_zero_division (st : BotState) (sym : String) (pos : Position)
    (qty : ℚ) (lookup : Option OrderData)
    (hpend : (getSignalPendingPhase st sym lookup).1 = none)
    (hq : ¬ qty = 0)
    (hcap : pyTrunc (pos.qty / qty) < (maxBuys : ℤ)) :
    (getSignal st sym 0 (some pos) qty lookup).1 = Except.error PyErr.zeroDivisionError := by
  rcases h : getSignalPendingPhase st sym lookup with ⟨r, st2⟩
  rw [h] at hpend
  simp only at hpend
  subst hpend
  simp [getSignal, h, getSignalDecision, hq, not_le.mpr hcap]

/-- Witness for C10 at a concrete input: one base lot held, price 0. -/
theorem C10_price_zero_division_witness :
    (getSignal emptyBotState "BTCINR" 0 (some posOneLot) 0.002 none).1
      = Except.error PyErr.zeroDivisionError :=
  C10_price_zero_division emptyBotState "BTCINR" posOneLot 0.002 none
    (by with_unfolding_all decide) (by with_unfolding_all decide) (by with_unfolding_all decide)

/-- C6: past the pending, step-cap and liquidation-buffer gates, the next
averaging price is avgEntryPrice * (1 - dropPercent/100 * buyCount) (it is
recorded, rounded to two decimals, in next_avg_price), the decision is buy
exactly when the price is strictly below that value and hold otherwise,
and concretely avg 1000 with buyCount 2 gives 985. -/
theorem C6_averaging_ladder (st : BotState) (sym : String) (pos : Position)
    (qty ltp : ℚ) (lookup : Option OrderData)
    (hpend : (getSignalPendingPhase st sym lookup).1 = none)
    (hq : 0 < qty)
    (hcap : pyTrunc (pos.qty / qty) < (maxBuys : ℤ))
    (hltp : 0 < ltp)
    (hliq : minLiqBuffer ≤ (ltp - pos.liq) / ltp * 100) :
    ((getSignal st sym ltp (some pos) qty lookup).1 = Except.ok Signal.buy
      ↔ ltp < pos.avg * (1 - dropPercent / 100 * (pyTrunc (pos.qty / qty) : ℚ)))
    ∧ ((getSignal st sym ltp (some pos) qty lookup).1 = Except.ok Signal.hold
      ↔ ¬ ltp < pos.avg * (1 - dropPercent / 100 * (pyTrunc (pos.qty / qty) : ℚ)))
    ∧ ((getSignal st sym ltp (some pos) qty lookup).2.nextAvgPrice.head?
      = some (sym, pyRoundTo 2
          (pos.avg * (1 - dropPercent / 100 * (pyTrunc (pos.qty / qty) : ℚ)))))
    ∧ (1000 : ℚ) * (1 - dropPercent / 100 * 2) = 985 := by
  have hq0 : ¬ qty = 0 := ne_of_gt hq
  have hltp0 : ¬ ltp = 0 := ne_of_gt hltp
  have hliq2 : ¬ (ltp - pos.liq) / ltp * 100 < minLiqBuffer := not_lt.mpr hliq
  rcases h : getSignalPendingPhase st sym lookup with ⟨r, st2⟩
  rw [h] at hpend
  simp only at hpend
  subst hpend
  by_cases hb : ltp < pos.avg * (1 - dropPercent / 100 * (pyTrunc (pos.qty / qty) : ℚ))
  · have havg : ¬ pos.avg = 0 := by
      intro h0
      rw [h0, zero_mul] at hb
      exact absurd hb (not_lt.mpr (le_of_lt hltp))
    refine ⟨?_, ?_, ?_, by norm_num [dropPercent]⟩ <;>
      simp [getSignal, h, getSignalDecision, hq0, not_le.mpr hcap, hltp0, hliq2, hb, havg]
  · refine ⟨?_, ?_, ?_, by norm_num [dropPercent]⟩ <;>
      simp [getSignal, h, getSignalDecision, hq0, not_le.mpr hcap, hltp0, hliq2, hb]

/-- Witness for C6 at a concrete input: avg 1000, two lots held, price 984
is below the 985 ladder rung, so the signal is buy. -/
theorem C6_averaging_ladder_witness :
    (getSignal emptyBotState "BTCINR" 984 (some posTwoLots) 0.002 none).1
      = Except.ok Signal.buy :=
  ((C6_averaging_ladder emptyBotState "BTCINR" posTwoLots 0.002 984 none
    (by with_unfolding_all decide) (by with_unfolding_all decide) (by with_unfolding_all decide) (by with_unfolding_all decide) (by with_unfolding_all decide)).1).mpr (by with_unfolding_all decide)

/-- C2 counterexample: the same symbol whose position was just observed
(the fetch on the left succeeds and parses a live position) yields none —
indistinguishable from no position — on the very next fetch when that one
is rate limited; get_signal then treats the absent position as flat and
answers buy, permitting a new entry.  No stale previous value is ever
returned, refuting the claimed fallback. -/
theorem C2_counterexample :
    (getPosition "BTCINR" (PositionFetch.ok [sampleApiRow])).1 = some posOneLot
    ∧ (getPosition "BTCINR" PositionFetch.rateLimited).1 = none
    ∧ ¬ (getPosition "BTCINR" PositionFetch.rateLimited).1 = some posOneLot
    ∧ (getSignal emptyBotState "BTCINR" 1000 none 0.002 none).1 = Except.ok Signal.buy := by
  refine ⟨?_, rfl, ?_, rfl⟩
  · with_unfolding_all rfl
  · intro h
    cases h

/-- C2 amended: every failing position fetch (rate limit, non-200 status,
request exception) returns none, with no cache or staleness fallback; and
get_signal treats an absent position as flat, returning buy whenever the
pending-order gate does not fire — so a transient fetch failure is
indistinguishable from a flat position and permits a new entry. -/
theorem C2_failed_fetch_returns_none (sym : String) (outcome : PositionFetch)
    (hfail : ∀ positions, ¬ outcome = PositionFetch.ok positions)
    (st : BotState) (ltp qty : ℚ) (lookup : Option OrderData)
    (hpend : (getSignalPendingPhase st sym lookup).1 = none) :
    (getPosition sym outcome).1 = none
    ∧ (getSignal st sym ltp none qty lookup).1 = Except.ok Signal.buy := by
  constructor
  · cases outcome with
    | ok positions => exact absurd rfl (hfail positions)
    | rateLimited => rfl
    | httpStatus c => rfl
    | requestException => rfl
  · rcases h : getSignalPendingPhase st sym lookup with ⟨r, st2⟩
    rw [h] at hpend
    simp only at hpend
    subst hpend
    simp [getSignal, h, getSignalDecision]

/-- Witness for C2 amended at a concrete input. -/
theorem C2_failed_fetch_returns_none_witness :
    (getPosition "BTCINR" PositionFetch.rateLimited).1 = none
    ∧ (getSignal emptyBotState "BTCINR" 1000 none 0.002 none).1 = Except.ok Signal.buy :=
  C2_failed_fetch_returns_none "BTCINR" PositionFetch.rateLimited
    (by intro positions h; cases h) emptyBotState 1000 0.002 none rfl

/-- C3 counterexample: a tracked BTCINR order that the open-order list no
longer contains is removed by reconciliation, but orders_filled stays 0
instead of incrementing to 1 as the claim states. -/
theorem C3_counterexample :
    (updatePendingOrdersFromApi 30 (fun _ _ => none) stateWithTracked).pendingOrders = []
    ∧ (updatePendingOrdersFromApi 30 (fun _ _ => none) stateWithTracked).ordersFilled = 0
    ∧ ¬ (updatePendingOrdersFromApi 30 (fun _ _ => none) stateWithTracked).ordersFilled
        = stateWithTracked.ordersFilled + 1 := by
  with_unfolding_all decide

/-- C3 amended: reconciliation removes a tracked order that the exchange
no longer lists without touching the filled counter; the counter
increments by exactly 1 only when the order is still listed with
filledAmount at or above orderAmount (status FILLED).  The pending block
of get_signal likewise removes a vanished order without incrementing. -/
theorem C3_vanished_order_not_counted (st : BotState) (now : ℚ) (sym : String)
    (info : PendingInfo) (oid : String) (lookup : String → String → Option OrderData)
    (hgate : ¬ now - st.lastOrderCheck < orderCheckInterval)
    (hpend : st.pendingOrders = [(sym, info)])
    (hid : info.orderId = some oid) :
    (lookup sym oid = none →
      (updatePendingOrdersFromApi now lookup st).pendingOrders = []
      ∧ (updatePendingOrdersFromApi now lookup st).ordersFilled = st.ordersFilled)
    ∧ (∀ od, lookup sym oid = some od → orderStatusOf od = OrderStatus.FILLED →
      (updatePendingOrdersFromApi now lookup st).pendingOrders = []
      ∧ (updatePendingOrdersFromApi now lookup st).ordersFilled = st.ordersFilled + 1)
    ∧ (∀ st2 : BotState, findPending st2 sym = some info →
      (getSignalPendingPhase st2 sym none).1 = none
      ∧ (getSignalPendingPhase st2 sym none).2.ordersFilled = st2.ordersFilled
      ∧ findPending ((getSignalPendingPhase st2 sym none).2) sym = none) := by
  refine ⟨?_, ?_, ?_⟩
  · intro hl
    simp [updatePendingOrdersFromApi, hgate, hpend, reconcileEntry, hid, hl]
  · intro od hl hstat
    simp [updatePendingOrdersFromApi, hgate, hpend, reconcileEntry, hid, hl, hstat]
  · intro st2 hfind
    have h2 : getSignalPendingPhase st2 sym none = (none, erasePending st2 sym) := by
      simp [getSignalPendingPhase, hfind, hid]
    rw [h2]
    exact ⟨rfl, rfl, findPending_erasePending st2 sym⟩

/-- Witness for C3 amended at a concrete input. -/
theorem C3_vanished_order_not_counted_witness :
    (updatePendingOrdersFromApi 30 (fun _ _ => none) stateWithTracked).pendingOrders = []
    ∧ (updatePendingOrdersFromApi 30 (fun _ _ => none) stateWithTracked).ordersFilled
      = stateWithTracked.ordersFilled :=
  (C3_vanished_order_not_counted stateWithTracked 30 "BTCINR" sampleTracked "ord1"
    (fun _ _ => none)
    (by norm_num [stateWithTracked, emptyBotState, orderCheckInterval])
    rfl rfl).1 rfl

/-- C4 counterexample: with the error count at 6 (above the ceiling 5),
three successive iterations whose probes would all succeed still report
unhealthy and leave the count at 6 — the probe is never issued, the count
never decays, and trading does not resume, refuting the claimed recovery
condition. -/
theorem C4_counterexample :
    healthCheckRun [true, true, true] 6 = ([false, false, false], 6) := by
  with_unfolding_all decide

/-- C4 amended: once the rolling error count exceeds max_api_errors, the
health check reports unhealthy immediately without issuing the probe, and
the main loop skips the entire iteration (monitoring included); since only
a probe success can decrement the count and the probe no longer runs, the
count stays put and the suspension is permanent for every sequence of
probe outcomes. -/
theorem C4_permanent_suspension (count : ℕ) (hc : maxApiErrors < count) :
    (∀ probe, checkApiHealth probe count = (false, count))
    ∧ ∀ probes : List Bool,
        healthCheckRun probes count = (probes.map (fun _ => false), count) := by
  have hgate : ∀ probe, checkApiHealth probe count = (false, count) := by
    intro probe
    simp [checkApiHealth, hc]
  refine ⟨hgate, ?_⟩
  intro probes
  induction probes with
  | nil => simp [healthCheckRun]
  | cons p ps ih => simp [healthCheckRun, hgate, ih]

/-- Witness for C4 amended at a concrete input. -/
theorem C4_permanent_suspension_witness :
    checkApiHealth true 6 = (false, 6) :=
  (C4_permanent_suspension 6 (by norm_num [maxApiErrors])).1 true

/-- C8 counterexample: with every attempt failing, initialization sleeps
the constant [3, 3] seconds between its three attempts — not the claimed
min(cap, backoffFactor^attempt + jitter) schedule — and then re-raises
(InitOutcome.raised) instead of reporting an explicit failure value. -/
theorem C8_counterexample :
    initBalanceAndPositions (fun _ => false) = (InitOutcome.raised, [3, 3]) := by
  with_unfolding_all decide

/-- C8 amended: the only retry logic in the engine is the initialization
loop: every inter-attempt delay equals the constant 3 seconds (trivially
non-decreasing; there is no exponential backoff, jitter or retry-after
handling), at most 3 attempts are made (hence at most 2 sleeps), and when
and only when all three attempts fail the exception is re-raised to the
caller rather than returned as an explicit failure. -/
theorem C8_constant_delay_bounded_raise (res : ℕ → Bool) :
    (∀ d ∈ (initBalanceAndPositions res).2, d = 3)
    ∧ (initBalanceAndPositions res).2.length ≤ 2
    ∧ ((initBalanceAndPositions res).1 = InitOutcome.raised
        ↔ res 0 = false ∧ res 1 = false ∧ res 2 = false) := by
  by_cases h0 : res 0 <;> by_cases h1 : res 1 <;> by_cases h2 : res 2 <;>
    simp [initBalanceAndPositions, initRetryLoop, h0, h1, h2]

/-- Witness for C8 amended at a concrete input. -/
theorem C8_constant_delay_bounded_raise_witness :
    (initBalanceAndPositions (fun _ => false)).1 = InitOutcome.raised :=
  (C8_constant_delay_bounded_raise (fun _ => false)).2.2.mpr ⟨rfl, rfl, rfl⟩

/-- cancel_order never touches the tracking dict itself. -/
theorem cancelOrder_pendingOrders (resp : CancelResp) (st : BotState) :
    ((cancelOrder resp st).2).pendingOrders = st.pendingOrders := by
  cases resp with
  | ok200 b => cases b <;> rfl
  | httpStatus c => rfl
  | httpError => rfl
  | exn => rfl

/-- cancel_order never touches the placed counter. -/
theorem cancelOrder_ordersPlaced (resp : CancelResp) (st : BotState) :
    ((cancelOrder resp st).2).ordersPlaced = st.ordersPlaced := by
  cases resp with
  | ok200 b => cases b <;> rfl
  | httpStatus c => rfl
  | httpError => rfl
  | exn => rfl

/-- In a list whose keys are free of duplicates, two entries under the
same key carry the same value. -/
theorem keyNodup_value_eq {l : List (String × PendingInfo)}
    (h : (l.map Prod.fst).Nodup) {s : String} {a b : PendingInfo}
    (ha : (s, a) ∈ l) (hb : (s, b) ∈ l) : a = b := by
  induction l with
  | nil => cases ha
  | cons p rest ih =>
    rw [List.map_cons, List.nodup_cons] at h
    rcases List.mem_cons.mp ha with ha1 | ha2 <;> rcases List.mem_cons.mp hb with hb1 | hb2
    · rw [← ha1] at hb1
      have hba := hb1.symm
      simp only [Prod.mk.injEq] at hba
      exact hba.2
    · exfalso
      rw [← ha1] at h
      exact h.1 (List.mem_map.mpr ⟨(s, b), hb2, rfl⟩)
    · exfalso
      rw [← hb1] at h
      exact h.1 (List.mem_map.mpr ⟨(s, a), ha2, rfl⟩)
    · exact ih h.2 ha2 hb2

/-- A selected cancellation carries the key of the entry it came from. -/
theorem oldOrderSelect_fst {now : ℚ} {p : String × PendingInfo} {q : String × String}
    (h : oldOrderSelect now p = some q) : q.1 = p.1 := by
  unfold oldOrderSelect at h
  cases hoid : p.2.orderId with
  | none => rw [hoid] at h; cases h
  | some oid =>
    rw [hoid] at h
    by_cases h1 : p.2.placedTime = 0
    · simp [h1] at h
    · by_cases h2 : now - p.2.placedTime > makerOrderTimeout ∧ p.2.fillPercentage < 50
      · simp [h1, h2] at h
        rw [← h]
      · simp [h1, h2] at h

/-- An entry at or above 50 percent filled is never selected by the
timeout sweep. -/
theorem oldOrderSelect_none_of_filled {now : ℚ} {p : String × PendingInfo}
    (h : 50 ≤ p.2.fillPercentage) : oldOrderSelect now p = none := by
  unfold oldOrderSelect
  cases hoid : p.2.orderId with
  | none => rfl
  | some oid =>
    have h2 : ¬ (now - p.2.placedTime > makerOrderTimeout ∧ p.2.fillPercentage < 50) := by
      rintro ⟨-, hlt⟩
      exact absurd h (not_le.mpr hlt)
    by_cases h1 : p.2.placedTime = 0 <;> simp [h1, h2]

/-- One sweep step either leaves the tracking dict alone or filters out
the key it just cancelled. -/
theorem cancelSweepStep_pendingOrders (resp : String → String → CancelResp)
    (st : BotState) (q : String × String) :
    (cancelSweepStep resp st q).pendingOrders = st.pendingOrders
    ∨ (cancelSweepStep resp st q).pendingOrders
      = st.pendingOrders.filter (fun p => ¬ p.1 = q.1) := by
  unfold cancelSweepStep
  by_cases hr : (cancelOrder (resp q.1 q.2) st).1 = true
  · right
    rw [if_pos hr]
    simp [cancelOrder_pendingOrders]
  · left
    rw [if_neg hr]
    exact cancelOrder_pendingOrders _ st

/-- One sweep step never touches the placed counter. -/
theorem cancelSweepStep_ordersPlaced (resp : String → String → CancelResp)
    (st : BotState) (q : String × String) :
    (cancelSweepStep resp st q).ordersPlaced = st.ordersPlaced := by
  unfold cancelSweepStep
  by_cases hr : (cancelOrder (resp q.1 q.2) st).1 = true
  · rw [if_pos hr]
    exact cancelOrder_ordersPlaced _ st
  · rw [if_neg hr]
    exact cancelOrder_ordersPlaced _ st

/-- The cancellation sweep keeps every tracked entry whose key is not
among the cancellations issued. -/
theorem cancelSweep_mem_preserved (resp : String → String → CancelResp)
    (toCancel : List (String × String)) (st : BotState) (s : String) (info : PendingInfo)
    (hmem : (s, info) ∈ st.pendingOrders)
    (hk : ∀ q ∈ toCancel, ¬ q.1 = s) :
    (s, info) ∈ (toCancel.foldl (cancelSweepStep resp) st).pendingOrders := by
  induction toCancel generalizing st with
  | nil => exact hmem
  | cons q qs ih =>
    rw [List.foldl_cons]
    apply ih
    · rcases cancelSweepStep_pendingOrders resp st q with hcase | hcase
      · rw [hcase]
        exact hmem
      · rw [hcase]
        refine List.mem_filter.mpr ⟨hmem, ?_⟩
        have hq1 : ¬ q.1 = s := hk q (List.mem_cons_self q qs)
        simp only [decide_eq_true_eq]
        intro he
        exact hq1 he.symm
    · intro r hr2
      exact hk r (List.mem_cons_of_mem q hr2)

/-- C7: the timeout sweep issues a cancellation for a tracked order
exactly when its age exceeds maker_order_timeout and its fill percentage
is below 50: an entry at or above 50 percent stays tracked and is never
cancelled, whatever else the dict holds (first part, assuming the
duplicate-free keys a Python dict guarantees); an overdue under-filled
entry is issued for cancellation, and on a confirmed success it is
removed from tracking with orders_cancelled incremented by one (second
part), while a failed cancellation leaves the state untouched (third
part); an entry not meeting both conditions triggers nothing (fourth
part). -/
theorem C7_timeout_sweep (now : ℚ) (resp : String → String → CancelResp) :
    (∀ st : BotState, ∀ s : String, ∀ info : PendingInfo,
      (st.pendingOrders.map Prod.fst).Nodup →
      (s, info) ∈ st.pendingOrders → 50 ≤ info.fillPercentage →
      (s, info) ∈ (checkAndCleanOldOrders now resp st).1.pendingOrders
      ∧ ∀ q ∈ (checkAndCleanOldOrders now resp st).2, ¬ q.1 = s)
    ∧ (∀ st : BotState, ∀ s : String, ∀ info : PendingInfo, ∀ oid : String,
      st.pendingOrders = [(s, info)] → info.orderId = some oid →
      ¬ info.placedTime = 0 → makerOrderTimeout < now - info.placedTime →
      info.fillPercentage < 50 → resp s oid = CancelResp.ok200 true →
      (checkAndCleanOldOrders now resp st).1.pendingOrders = []
      ∧ (checkAndCleanOldOrders now resp st).1.ordersCancelled = st.ordersCancelled + 1
      ∧ (checkAndCleanOldOrders now resp st).2 = [(s, oid)])
    ∧ (∀ st : BotState, ∀ s : String, ∀ info : PendingInfo, ∀ oid : String,
      st.pendingOrders = [(s, info)] → info.orderId = some oid →
      ¬ info.placedTime = 0 → makerOrderTimeout < now - info.placedTime →
      info.fillPercentage < 50 → ¬ resp s oid = CancelResp.ok200 true →
      (checkAndCleanOldOrders now resp st).1 = st
      ∧ (checkAndCleanOldOrders now resp st).2 = [(s, oid)])
    ∧ (∀ st : BotState, ∀ s : String, ∀ info : PendingInfo, ∀ oid : String,
      st.pendingOrders = [(s, info)] → info.orderId = some oid →
      ¬ info.placedTime = 0 →
      ¬ (makerOrderTimeout < now - info.placedTime ∧ info.fillPercentage < 50) →
      (checkAndCleanOldOrders now resp st).1 = st
      ∧ (checkAndCleanOldOrders now resp st).2 = []) := by
  refine ⟨?_, ?_, ?_, ?_⟩
  · intro st s info hnodup hmem hfill
    have hsel : ∀ q ∈ st.pendingOrders.filterMap (oldOrderSelect now), ¬ q.1 = s := by
      intro q hq hqs
      rcases List.mem_filterMap.mp hq with ⟨p, hp, hsome⟩
      have hps : p.1 = s := by
        rw [← oldOrderSelect_fst hsome]
        exact hqs
      have hmem2 : (s, p.2) ∈ st.pendingOrders := by
        rw [← hps]
        exact hp
      have heq : p.2 = info := keyNodup_value_eq hnodup hmem2 hmem
      have hnone : oldOrderSelect now p = none := by
        apply oldOrderSelect_none_of_filled
        rw [heq]
        exact hfill
      rw [hnone] at hsome
      cases hsome
    constructor
    · exact cancelSweep_mem_preserved resp _ st s info hmem hsel
    · exact hsel
  · intro st s info oid hpend hid hpt hage hfill hresp
    have hcond : now - info.placedTime > makerOrderTimeout ∧ info.fillPercentage < 50 :=
      ⟨hage, hfill⟩
    have hlist : st.pendingOrders.filterMap (oldOrderSelect now) = [(s, oid)] := by
      rw [hpend]
      simp [oldOrderSelect, hid, hpt, hcond]
    refine ⟨?_, ?_, ?_⟩
    · have hred : (checkAndCleanOldOrders now resp st).1 = cancelSweepStep resp st (s, oid) := by
        simp [checkAndCleanOldOrders, hlist]
      rw [hred]
      simp [cancelSweepStep, cancelOrder, hresp, hpend]
    · have hred : (checkAndCleanOldOrders now resp st).1 = cancelSweepStep resp st (s, oid) := by
        simp [checkAndCleanOldOrders, hlist]
      rw [hred]
      simp [cancelSweepStep, cancelOrder, hresp]
    · simp [checkAndCleanOldOrders, hlist]
  · intro st s info oid hpend hid hpt hage hfill hresp
    have hcond : now - info.placedTime > makerOrderTimeout ∧ info.fillPercentage < 50 :=
      ⟨hage, hfill⟩
    have hlist : st.pendingOrders.filterMap (oldOrderSelect now) = [(s, oid)] := by
      rw [hpend]
      simp [oldOrderSelect, hid, hpt, hcond]
    have hfail : cancelOrder (resp s oid) st = (false, st) := by
      cases hv : resp s oid with
      | ok200 b =>
        cases b
        · rfl
        · exact absurd hv hresp
      | httpStatus c => rfl
      | httpError => rfl
      | exn => rfl
    constructor
    · simp [checkAndCleanOldOrders, hlist, cancelSweepStep, hfail]
    · simp [checkAndCleanOldOrders, hlist]
  · intro st s info oid hpend hid hpt hcond
    have hlist : st.pendingOrders.filterMap (oldOrderSelect now) = [] := by
      rw [hpend]
      simp [oldOrderSelect, hid, hpt, hcond]
    constructor
    · simp [checkAndCleanOldOrders, hlist]
    · simp [checkAndCleanOldOrders, hlist]

/-- Reconciliation never touches the placed counter. -/
theorem updatePending_ordersPlaced (now : ℚ) (lookup : String → String → Option OrderData)
    (st : BotState) :
    (updatePendingOrdersFromApi now lookup st).ordersPlaced = st.ordersPlaced := by
  unfold updatePendingOrdersFromApi
  split <;> rfl

/-- The whole cancellation sweep never touches the placed counter. -/
theorem cancelSweep_ordersPlaced (resp : String → String → CancelResp)
    (toCancel : List (String × String)) (st : BotState) :
    (toCancel.foldl (cancelSweepStep resp) st).ordersPlaced = st.ordersPlaced := by
  induction toCancel generalizing st with
  | nil => rfl
  | cons q qs ih => rw [List.foldl_cons, ih, cancelSweepStep_ordersPlaced]

/-- The maintenance prefix of an iteration never touches the placed
counter. -/
theorem afterMaintenance_ordersPlaced (env : CycleEnv) (st : BotState) :
    (afterMaintenance env st).ordersPlaced = st.ordersPlaced := by
  unfold afterMaintenance checkAndCleanOldOrders
  rw [cancelSweep_ordersPlaced, updatePending_ordersPlaced]

/-- A balance refresh never touches the placed counter. -/
theorem updateBalance_ordersPlaced (bal : BalanceData) (st : BotState) :
    (updateBalance bal st).ordersPlaced = st.ordersPlaced := rfl

/-- When a tracked order with an identifier is looked up and found still
unresolved (NEW or partially filled), get_signal returns pending and
leaves the state untouched. -/
theorem getSignal_pending_of_unresolved (st : BotState) (sym : String) (ltp : ℚ)
    (position : Option Position) (qty : ℚ) (od : OrderData) (info : PendingInfo)
    (oid : String)
    (hfind : findPending st sym = some info) (hid : info.orderId = some oid)
    (hstat : orderStatusOf od = OrderStatus.NEW
      ∨ orderStatusOf od = OrderStatus.PART_FILLED) :
    getSignal st sym ltp position qty (some od) = (Except.ok Signal.pending, st) := by
  have hphase : getSignalPendingPhase st sym (some od) = (some Signal.pending, st) := by
    rcases hstat with h | h <;> simp [getSignalPendingPhase, hfind, hid, h]
  simp [getSignal, hphase]

/-- Unrolling one iteration off the end of a multi-cycle run. -/
theorem stateAfter_take_succ (sym : String) (qty : ℚ) (st0 : BotState)
    (envs : List CycleEnv) (i : ℕ) (hi : i < envs.length) :
    stateAfter sym qty st0 (envs.take (i + 1))
      = runCycleSymbol sym qty (envs.get ⟨i, hi⟩) (stateAfter sym qty st0 (envs.take i)) := by
  have h1 : envs.take (i + 1) = envs.take i ++ [envs.get ⟨i, hi⟩] := by
    rw [List.take_succ, List.getElem?_eq_getElem hi]
    simp [List.get_eq_getElem]
  rw [h1]
  unfold stateAfter
  rw [List.foldl_append]
  rfl

/-- An iteration whose decision-time lookup reports the tracked order
still unresolved ends in exactly the decision-time state: no placement
happens and nothing changes after the balance refresh. -/
theorem runCycle_pending_step (sym : String) (qty : ℚ) (env : CycleEnv) (st : BotState)
    (bal : BalanceData) (ltp : ℚ) (od : OrderData) (info : PendingInfo) (oid : String)
    (hbal : env.balanceFetch = some bal) (hltp : env.ltpFetch = some ltp)
    (hlook : env.signalLookup = some od)
    (hstat : orderStatusOf od = OrderStatus.NEW
      ∨ orderStatusOf od = OrderStatus.PART_FILLED)
    (hfind : findPending (updateBalance bal (afterMaintenance env st)) sym = some info)
    (hid : info.orderId = some oid) :
    runCycleSymbol sym qty env st = updateBalance bal (afterMaintenance env st) := by
  have hsig := getSignal_pending_of_unresolved (updateBalance bal (afterMaintenance env st))
    sym ltp env.position qty od info oid hfind hid hstat
  unfold runCycleSymbol
  simp only [hbal, hltp, processSymbol, hlook, hsig]
  simp

/-- Witness for C7 at a concrete input: the tracked BTCINR order is 190
seconds old (timeout 120) and 0 percent filled; cancellation succeeds, so
it is removed and the counter increments. -/
theorem C7_timeout_sweep_witness :
    (checkAndCleanOldOrders 200 (fun _ _ => CancelResp.ok200 true)
        stateWithTracked).1.pendingOrders = []
    ∧ (checkAndCleanOldOrders 200 (fun _ _ => CancelResp.ok200 true)
        stateWithTracked).1.ordersCancelled = stateWithTracked.ordersCancelled + 1
    ∧ (checkAndCleanOldOrders 200 (fun _ _ => CancelResp.ok200 true)
        stateWithTracked).2 = [("BTCINR", "ord1")] :=
  (C7_timeout_sweep 200 (fun _ _ => CancelResp.ok200 true)).2.1 stateWithTracked
    "BTCINR" sampleTracked "ord1" rfl rfl
    (by norm_num [sampleTracked])
    (by norm_num [sampleTracked, makerOrderTimeout])
    (by norm_num [sampleTracked]) rfl

/-- C1: across every cycle of a multi-cycle run, whenever the symbol holds
a tracked pending order (the dict holds at most one per symbol by
construction) whose identifier the decision-time lookup reports still
unresolved (NEW or partially filled), get_signal returns pending and the
cycle submits no second entry order: the iteration ends in exactly the
decision-time state, orders_placed is unchanged from the previous cycle
boundary, and the same first order is still the one tracked. -/
theorem C1_at_most_one_entry_order (sym : String) (qty : ℚ) (st0 : BotState)
    (envs : List CycleEnv) (i : ℕ) (hi : i < envs.length)
    (bal : BalanceData) (ltp : ℚ) (od : OrderData) (info : PendingInfo) (oid : String)
    (hbal : (envs.get ⟨i, hi⟩).balanceFetch = some bal)
    (hltp : (envs.get ⟨i, hi⟩).ltpFetch = some ltp)
    (hlook : (envs.get ⟨i, hi⟩).signalLookup = some od)
    (hstat : orderStatusOf od = OrderStatus.NEW
      ∨ orderStatusOf od = OrderStatus.PART_FILLED)
    (hfind : findPending (updateBalance bal (afterMaintenance (envs.get ⟨i, hi⟩)
        (stateAfter sym qty st0 (envs.take i)))) sym = some info)
    (hid : info.orderId = some oid) :
    getSignal (updateBalance bal (afterMaintenance (envs.get ⟨i, hi⟩)
        (stateAfter sym qty st0 (envs.take i)))) sym ltp
        (envs.get ⟨i, hi⟩).position qty (some od)
      = (Except.ok Signal.pending,
          updateBalance bal (afterMaintenance (envs.get ⟨i, hi⟩)
            (stateAfter sym qty st0 (envs.take i))))
    ∧ stateAfter sym qty st0 (envs.take (i + 1))
      = updateBalance bal (afterMaintenance (envs.get ⟨i, hi⟩)
          (stateAfter sym qty st0 (envs.take i)))
    ∧ (stateAfter sym qty st0 (envs.take (i + 1))).ordersPlaced
      = (stateAfter sym qty st0 (envs.take i)).ordersPlaced
    ∧ findPending (stateAfter sym qty st0 (envs.take (i + 1))) sym = some info := by
  have hsig := getSignal_pending_of_unresolved
    (updateBalance bal (afterMaintenance (envs.get ⟨i, hi⟩)
      (stateAfter sym qty st0 (envs.take i))))
    sym ltp (envs.get ⟨i, hi⟩).position qty od info oid hfind hid hstat
  have hcycle := runCycle_pending_step sym qty (envs.get ⟨i, hi⟩)
    (stateAfter sym qty st0 (envs.take i)) bal ltp od info oid
    hbal hltp hlook hstat hfind hid
  have h2 : stateAfter sym qty st0 (envs.take (i + 1))
      = updateBalance bal (afterMaintenance (envs.get ⟨i, hi⟩)
          (stateAfter sym qty st0 (envs.take i))) := by
    rw [stateAfter_take_succ sym qty st0 envs i hi, hcycle]
  refine ⟨hsig, h2, ?_, ?_⟩
  · rw [h2, updateBalance_ordersPlaced, afterMaintenance_ordersPlaced]
  · rw [h2]
    exact hfind

set_option maxRecDepth 4000 in
/-- Witness for C1 at a concrete input: a one-cycle run starting with a
tracked NEW order for BTCINR whose lookup reports it still NEW; the cycle
places nothing and the same order stays tracked. -/
theorem C1_at_most_one_entry_order_witness :
    (stateAfter "BTCINR" 0.002 stateWithTracked ([sampleCycleEnv].take (0 + 1))).ordersPlaced
      = (stateAfter "BTCINR" 0.002 stateWithTracked ([sampleCycleEnv].take 0)).ordersPlaced
    ∧ findPending (stateAfter "BTCINR" 0.002 stateWithTracked ([sampleCycleEnv].take (0 + 1)))
        "BTCINR" = some sampleTracked :=
  ⟨(C1_at_most_one_entry_order "BTCINR" 0.002 stateWithTracked [sampleCycleEnv] 0
      (by norm_num) sampleBalance 1000 sampleOpenOrder sampleTracked "ord1"
      rfl rfl rfl (Or.inl (by with_unfolding_all decide))
      (by with_unfolding_all decide) rfl).2.2.1,
   (C1_at_most_one_entry_order "BTCINR" 0.002 stateWithTracked [sampleCycleEnv] 0
      (by norm_num) sampleBalance 1000 sampleOpenOrder sampleTracked "ord1"
      rfl rfl rfl (Or.inl (by with_unfolding_all decide))
      (by with_unfolding_all decide) rfl).2.2.2⟩

end TradBot
